import Mathlib

/-!
# Verification of the sanctum-sdk-python protocol/session core

Shallow embedding of `src/sanctum_ai/protocol.py` and
`src/sanctum_ai/client.py`.  Bytes are modelled as `List Nat` (each element a
byte value).  Python exceptions are modelled by an explicit error type
(`PyError`): raising is returning `.error`.  The JSON serialisation performed
by the Python standard library (`json.dumps` / `json.loads`) is external to
the repository, so the frame codec is parameterised by a `dumps`/`loads` pair;
the stdlib's left-inverse property appears as an explicit hypothesis where a
theorem needs it.  Likewise the cryptographic primitives from `nacl` and
`hashlib` (Ed25519 signing, PBKDF2, SecretBox) and the lossy UTF-8 decoder
are bundled into an `Ext` record of external functions.

The repository imports `sanctum_ai/exceptions.py`, which is not present under
`src/`; the exception hierarchy and the `CODE_TO_EXCEPTION` table are
modelled from the spec (section 4.2) where marked.
-/

namespace Sanctum

/-! ## Errors

`exceptions.py` is not in the source tree.  Modelled from the spec: the
error-code → kind table of spec §4.2 lists the kinds `VaultError` (generic),
`AuthError`, `AccessDenied`, `CredentialNotFound`, `VaultLocked`,
`LeaseExpired`, `RateLimited`, `SessionExpired`; `raise_on_error` falls back
to `VaultError` for unknown codes and `close` swallows `VaultError`, so all
taxonomy kinds are vault-failure kinds (subclasses of `VaultError` in
Python).  Python exceptions from outside that family (`KeyError` from a
missing dict key, `ValueError` from `bytes.fromhex`, `nacl`'s `CryptoError`)
are separate constructors of `PyError`. -/

inductive ErrKind where
  | vaultError
  | authError
  | accessDenied
  | credentialNotFound
  | vaultLocked
  | leaseExpired
  | rateLimited
  | sessionExpired
deriving DecidableEq, Repr

/-- Context mapping attached to a structured error (`context` field). -/
abbrev Ctx := List (String × String)

/-- A vault-failure value: one of the taxonomy kinds plus the structured
fields carried by the Python exception classes. -/
structure SanctumError where
  kind : ErrKind
  message : String
  code : Option String := none
  detail : Option String := none
  suggestion : Option String := none
  docs_url : Option String := none
  context : Ctx := []
deriving DecidableEq, Repr

/-- A Python exception as surfaced by the SDK code: either a vault-family
error (`VaultError` and its subclasses) or one of the builtin / library
exceptions the code can leak. -/
inductive PyError where
  | vault (e : SanctumError)
  | keyError (k : String)
  | valueError (m : String)
  | cryptoError (m : String)
deriving DecidableEq, Repr

/-- `VaultError(msg, code="INTERNAL_ERROR")` as used by `protocol.py` and
`client.py` for connection-level failures. -/
def vaultInternal (msg : String) : SanctumError :=
  { kind := .vaultError, message := msg, code := some "INTERNAL_ERROR" }

/-- `AuthError(msg, code="AUTH_FAILED")` as raised by `client.py`. -/
def authFailed (msg : String) : SanctumError :=
  { kind := .authError, message := msg, code := some "AUTH_FAILED" }

/-! ## Bytes and hex -/

/-- Value of a hex digit character, as accepted by `bytes.fromhex`. -/
def hexDigitVal (c : Char) : Option Nat :=
  if '0' ≤ c ∧ c ≤ '9' then some (c.toNat - '0'.toNat)
  else if 'a' ≤ c ∧ c ≤ 'f' then some (c.toNat - 'a'.toNat + 10)
  else if 'A' ≤ c ∧ c ≤ 'F' then some (c.toNat - 'A'.toNat + 10)
  else none

/-- `bytes.fromhex`: pairs of hex digits, spaces allowed between pairs (not
inside a pair), failure on any other character or an odd digit. -/
def fromHexAux : List Char → Option (List Nat)
  | [] => some []
  | c :: cs =>
    if c = ' ' then fromHexAux cs
    else
      match hexDigitVal c, cs with
      | some hi, d :: cs2 =>
        match hexDigitVal d with
        | some lo => (fromHexAux cs2).map fun r => (16 * hi + lo) :: r
        | none => none
      | _, _ => none

/-- `bytes.fromhex(s)` returning `none` where Python raises `ValueError`. -/
def bytesFromHex (s : String) : Option (List Nat) :=
  fromHexAux s.data

/-- ASCII whitespace as stripped by Python's `str.strip()`. -/
def isPySpace (c : Char) : Bool :=
  c == ' ' || c == '\t' || c == '\n' || c == '\r' || c == Char.ofNat 11 || c == Char.ofNat 12

/-- Python `str.strip()` (restricted to ASCII whitespace, which is all a
hex key file can legitimately contain). -/
def strip (s : String) : String :=
  ⟨((s.data.dropWhile isPySpace).reverse.dropWhile isPySpace).reverse⟩

/-- Lowercase hex digit for a value `< 16` (`bytes.hex()` helper). -/
def hexChar (n : Nat) : Char :=
  if n < 10 then Char.ofNat ('0'.toNat + n) else Char.ofNat ('a'.toNat + n - 10)

/-- `bytes.hex()`: two lowercase hex digits per byte. -/
def bytesToHex (bs : List Nat) : String :=
  ⟨bs.foldr (fun b acc => hexChar (b / 16 % 16) :: hexChar (b % 16) :: acc) []⟩

/-! ## Framing (`protocol.py`)

`struct.pack(">I", n)` / `struct.unpack(">I", b)`: 4-byte unsigned
big-endian. -/

/-- `struct.pack(">I", n)` for `n < 2 ^ 32` (Python raises for larger `n`;
theorems that need it carry the bound as a hypothesis). -/
def pack32 (n : Nat) : List Nat :=
  [n / 16777216 % 256, n / 65536 % 256, n / 256 % 256, n % 256]

/-- `struct.unpack(">I", bs)[0]` on a 4-byte buffer. -/
def unpack32 : List Nat → Nat
  | [b0, b1, b2, b3] => ((b0 * 256 + b1) * 256 + b2) * 256 + b3
  | _ => 0

/-- `MAX_MESSAGE_SIZE = 4 * 1024 * 1024` from `protocol.py`. -/
def MAX_MESSAGE_SIZE : Nat := 4 * 1024 * 1024

/-- `encode_frame(obj)`: 4-byte big-endian length prefix followed by the
serialised payload; `dumps` stands for `json.dumps(obj,
separators=(",", ":")).encode()`. -/
def encode_frame {α : Type} (dumps : α → List Nat) (obj : α) : List Nat :=
  pack32 (dumps obj).length ++ dumps obj

/-- `decode_frame(data)`: header/body availability checks, then parse; the
parsed object is returned with the unconsumed remainder.  `loads` stands for
`json.loads`; its failure is Python's `json.JSONDecodeError` (a
`ValueError`). -/
def decode_frame {α : Type} (loads : List Nat → Option α) (data : List Nat) :
    Except PyError (α × List Nat) :=
  if data.length < 4 then
    .error (.vault (vaultInternal "Incomplete frame header"))
  else
    let length := unpack32 (data.take 4)
    if data.length < 4 + length then
      .error (.vault (vaultInternal "Incomplete frame body"))
    else
      match loads ((data.drop 4).take length) with
      | some obj => .ok (obj, data.drop (4 + length))
      | none => .error (.valueError "json decode")

/-- `_read_exact(sock, n)`: blocking read of exactly `n` bytes.  The stream
is the byte sequence the peer will deliver before closing; fewer than `n`
available models the peer closing mid-read. -/
def read_exact (stream : List Nat) (n : Nat) :
    Except PyError (List Nat × List Nat) :=
  if stream.length < n then
    .error (.vault (vaultInternal "Connection closed"))
  else
    .ok (stream.take n, stream.drop n)

/-- `recv(sock)`: read the 4-byte header, reject oversized declared lengths
before reading the body, then read and parse the body. -/
def recvMsg {α : Type} (loads : List Nat → Option α) (stream : List Nat) :
    Except PyError α :=
  match read_exact stream 4 with
  | .error e => .error e
  | .ok (hdr, rest) =>
    let length := unpack32 hdr
    if length > MAX_MESSAGE_SIZE then
      .error (.vault (vaultInternal "Response too large"))
    else
      match read_exact rest length with
      | .error e => .error e
      | .ok (body, _) =>
        match loads body with
        | some obj => .ok obj
        | none => .error (.valueError "json decode")

/-! ## RPC responses and the error taxonomy (`raise_on_error`) -/

/-- The `error` field of a response: absent, a legacy bare string, or a
structured error object. -/
structure StructuredError where
  code : Option String := none
  message : Option String := none
  detail : Option String := none
  suggestion : Option String := none
  docs_url : Option String := none
  context : Option Ctx := none
deriving DecidableEq, Repr

inductive ErrField where
  | absent
  | str (s : String)
  | obj (e : StructuredError)
deriving DecidableEq, Repr

/-- The fields of a `result` mapping that `client.py` reads.  Absent keys are
`none`; `r["k"]` on an absent key is Python's `KeyError`. -/
structure RpcResult where
  session_id : Option String := none
  challenge : Option String := none
  authenticated : Option Bool := none
  lease_id : Option String := none
  value : Option String := none
  credentials : Option (List String) := none
deriving DecidableEq, Repr

/-- A wire response: `{id, result}` or `{id, error}`.  `resp.get("result",
{})` is `result.getD {}`. -/
structure Response where
  id : Nat := 0
  error : ErrField := .absent
  result : Option RpcResult := none
deriving DecidableEq, Repr

/-- Modelled from the spec: `CODE_TO_EXCEPTION` lives in
`sanctum_ai/exceptions.py`, which is not under `src/`.  Spec §4.2 fixes the
table: AUTH_FAILED → AuthError, ACCESS_DENIED → AccessDenied,
CREDENTIAL_NOT_FOUND → CredentialNotFound, VAULT_LOCKED → VaultLocked,
LEASE_EXPIRED → LeaseExpired, RATE_LIMITED → RateLimited, SESSION_EXPIRED →
SessionExpired. -/
def CODE_TO_EXCEPTION : List (String × ErrKind) :=
  [("AUTH_FAILED", .authError),
   ("ACCESS_DENIED", .accessDenied),
   ("CREDENTIAL_NOT_FOUND", .credentialNotFound),
   ("VAULT_LOCKED", .vaultLocked),
   ("LEASE_EXPIRED", .leaseExpired),
   ("RATE_LIMITED", .rateLimited),
   ("SESSION_EXPIRED", .sessionExpired)]

/-- `CODE_TO_EXCEPTION.get(code, VaultError)`. -/
def codeToKind (code : String) : ErrKind :=
  (CODE_TO_EXCEPTION.lookup code).getD .vaultError

/-- `raise_on_error(resp)`: `some e` models raising `e`, `none` models
returning normally. -/
def raise_on_error (resp : Response) : Option SanctumError :=
  match resp.error with
  | .absent => none
  | .str s => some { kind := .vaultError, message := s }
  | .obj e =>
    let code := e.code.getD "INTERNAL_ERROR"
    some { kind := codeToKind code,
           message := e.message.getD "Unknown error",
           code := some code,
           detail := e.detail,
           suggestion := e.suggestion,
           docs_url := e.docs_url,
           context := e.context.getD [] }

/-! ## The session (`client.py`)

The transport is abstracted one level above the frame codec: each RPC call
sends one `Request` and consumes the next `Response` from the byte stream,
matching the strict send-then-receive discipline of `_call`.  Open sockets
are tracked by numeric identifiers allocated by a counter, so that "a new
transport is opened" and "the transport was (not) closed" are observable.
The server's behaviour is the `pending` list: the responses it will deliver,
in order; an empty list when a response is needed models the peer closing
the connection (surfaced by `_read_exact` as `VaultError("Connection
closed")`). -/

/-- Request parameter mapping: the keys `client.py` ever sends.  A key the
call does not set is `none`. -/
structure Params where
  agent_name : Option String := none
  session_id : Option String := none
  signature : Option String := none
  path : Option String := none
  ttl : Option Nat := none
  lease_id : Option String := none
  operation : Option String := none
deriving DecidableEq, Repr

structure Request where
  id : Nat
  method : String
  params : Params
deriving DecidableEq, Repr

/-- External functions the SDK calls but does not implement: `nacl` signing
and secret-box decryption, `hashlib` PBKDF2, and the lossy UTF-8 decoder of
`bytes.decode("utf-8", errors="replace")`.  Theorems quantify over this
record. -/
structure Ext where
  sign : List Nat → List Nat → List Nat
  pbkdf2 : String → List Nat → List Nat
  boxOpen : List Nat → List Nat → List Nat → Option (List Nat)
  utf8Replace : List Nat → String

/-- An Ed25519 signing key: `nacl.signing.SigningKey` wrapping its 32-byte
seed. -/
structure SigningKey where
  seed : List Nat
deriving DecidableEq, Repr

/-- The mutable fields of a `SanctumClient` instance. -/
structure Client where
  agent_name : String
  socket_path : Option String := none
  host : Option String := none
  port : Option Nat := none
  sock : Option Nat := none
  session_id : Option String := none
  req_id : Nat := 0
  leases : List String := []
deriving DecidableEq, Repr

/-- The sockets outside the client: which transport identifiers are open,
and the next fresh identifier. -/
structure World where
  nextSock : Nat := 0
  openSocks : List Nat := []
deriving DecidableEq, Repr

/-- One session run: the client object, the socket world, the responses the
server will deliver (in order), and the log of requests sent so far. -/
structure St where
  client : Client
  world : World := {}
  pending : List Response := []
  sent : List Request := []
deriving DecidableEq, Repr

/-- `SanctumClient.__init__(agent_name, ...)`. -/
def initClient (agent_name : String) : Client :=
  { agent_name }

/-- `_call(method, params)`: raise if not connected; otherwise assign the
next request id, send, receive the next response, apply `raise_on_error`,
and return `resp.get("result", {})`.  State already mutated before a raise
(the id counter, the sent request, the consumed response) stays mutated. -/
def call (st : St) (method : String) (params : Params) :
    Except SanctumError RpcResult × St :=
  match st.client.sock with
  | none => (.error (vaultInternal "Not connected"), st)
  | some _ =>
    let rid := st.client.req_id + 1
    let st1 : St :=
      { st with client := { st.client with req_id := rid },
                sent := st.sent ++ [⟨rid, method, params⟩] }
    match st1.pending with
    | [] => (.error (vaultInternal "Connection closed"), { st1 with pending := [] })
    | resp :: rest =>
      let st2 : St := { st1 with pending := rest }
      match raise_on_error resp with
      | some e => (.error e, st2)
      | none => (.ok (resp.result.getD {}), st2)

/-! ## Key loading (`_load_signing_key`, `_load_encrypted_key`)

The functions take the file's text contents; opening the file is filesystem
plumbing outside the modelled core (an unreadable file raises `OSError` in
Python before either function's body runs). -/

/-- `SigningKey(seed)`: `nacl` rejects a seed that is not exactly 32
bytes. -/
def mkSigningKey (seed : List Nat) : Except PyError SigningKey :=
  if seed.length = 32 then .ok ⟨seed⟩
  else .error (.valueError "The seed must be a 32 bytes long bytes sequence")

/-- `_load_signing_key(path)` on the file's contents: strip, hex-decode
(`ValueError` on malformed hex), `AuthError` when the decoded length is not
32, else construct the key. -/
def load_signing_key (contents : String) : Except PyError SigningKey :=
  match bytesFromHex (strip contents) with
  | none => .error (.valueError "non-hexadecimal number found in fromhex() arg")
  | some seed =>
    if seed.length ≠ 32 then
      .error (.vault (authFailed
        ("Key file has " ++ toString seed.length ++ " bytes, expected 32")))
    else
      .ok ⟨seed⟩

/-- `_load_encrypted_key(path, passphrase)` on the file's contents: strip,
hex-decode, split `salt[:16] ‖ nonce[16:40] ‖ ct[40:]`, derive the box key
with PBKDF2, open the box (`nacl.exceptions.CryptoError` on MAC failure,
e.g. a wrong passphrase), then `SigningKey(seed)`. -/
def load_encrypted_key (ext : Ext) (contents : String) (passphrase : String) :
    Except PyError SigningKey :=
  match bytesFromHex (strip contents) with
  | none => .error (.valueError "non-hexadecimal number found in fromhex() arg")
  | some blob =>
    let salt := blob.take 16
    let nonce := (blob.drop 16).take 24
    let ct := blob.drop 40
    let dk := ext.pbkdf2 passphrase salt
    match ext.boxOpen dk ct nonce with
    | none => .error (.cryptoError "Decryption failed. Ciphertext failed verification")
    | some seed => mkSigningKey seed

/-! ## Handshake and lifecycle -/

/-- `_authenticate()`: resolve the key, run the two round trips, store the
session id from the first, sign the challenge, and require
`authenticated` to be truthy in the second.  `resolveKey` is the outcome of
`_resolve_key()` (key discovery is filesystem plumbing; its two loaders are
modelled above). -/
def authenticate (ext : Ext) (resolveKey : Except PyError SigningKey)
    (st : St) : Except PyError Unit × St :=
  match resolveKey with
  | .error e => (.error e, st)
  | .ok sk =>
    match call st "authenticate" { agent_name := some st.client.agent_name } with
    | (.error e, st) => (.error (.vault e), st)
    | (.ok r, st) =>
      match r.session_id with
      | none => (.error (.keyError "session_id"), st)
      | some sid =>
        let st : St := { st with client := { st.client with session_id := some sid } }
        match r.challenge with
        | none => (.error (.keyError "challenge"), st)
        | some chex =>
          match bytesFromHex chex with
          | none => (.error (.valueError "non-hexadecimal number found in fromhex() arg"), st)
          | some challenge =>
            let sig := ext.sign sk.seed challenge
            match call st "challenge_response"
                { session_id := some sid, signature := some (bytesToHex sig) } with
            | (.error e, st) => (.error (.vault e), st)
            | (.ok r, st) =>
              if r.authenticated = some true then (.ok (), st)
              else (.error (.vault (authFailed "Authentication not confirmed")), st)

/-- The optional `target` argument of `connect`. -/
inductive Target where
  | path (p : String)
  | pair (h : String) (p : Nat)
  | dict (h : String) (p : Nat)
deriving DecidableEq, Repr

/-- The target-override block at the top of `connect`. -/
def applyTarget (target : Option Target) (c : Client) : Client :=
  match target with
  | none => c
  | some (.path p) => { c with socket_path := some p, host := none }
  | some (.dict h p) => { c with host := some h, port := some p, socket_path := none }
  | some (.pair h p) => { c with host := some h, port := some p, socket_path := none }

/-- The socket-opening block of `connect`: a fresh transport is created and
stored in `self._sock`, unconditionally overwriting any previous value; the
previous transport is not closed.  (Whether the AF_INET or AF_UNIX branch
runs does not affect the session state; a failed OS-level `connect` raises
`OSError` before any state change and is outside the modelled core.) -/
def openTransport (target : Option Target) (st : St) : St :=
  let c := applyTarget target st.client
  let s1 := st.world.nextSock
  { st with
      client := { c with sock := some s1 },
      world := { nextSock := s1 + 1, openSocks := st.world.openSocks ++ [s1] } }

/-- `connect(target)`: resolve the target, open the transport, then run the
handshake.  There is no exception handler: a handshake error propagates with
the socket still open and stored. -/
def connect (ext : Ext) (resolveKey : Except PyError SigningKey)
    (target : Option Target) (st : St) : Except PyError Unit × St :=
  authenticate ext resolveKey (openTransport target st)

/-- `release_lease(lease_id)`: RPC first (its failure propagates), then
remove the id from the tracked list if present (`list.remove` drops the
first occurrence; absent ids are skipped by the `if`). -/
def release_lease (st : St) (lease_id : String) :
    Except SanctumError Unit × St :=
  match call st "release_lease" { lease_id := some lease_id } with
  | (.error e, st) => (.error e, st)
  | (.ok _, st) =>
    (.ok (), { st with client := { st.client with leases := st.client.leases.erase lease_id } })

/-- `close()`: iterate over a snapshot of the tracked leases, attempting
`release_lease` for each and swallowing any `VaultError`; then close the
transport if open; then clear the session id.  The loop threads the state:
a successful release removes its id from the live list. -/
def close (st : St) : St :=
  let st1 := st.client.leases.foldl (fun acc lid => (release_lease acc lid).2) st
  let st2 : St :=
    match st1.client.sock with
    | some s =>
      { st1 with
          client := { st1.client with sock := none },
          world := { st1.world with openSocks := st1.world.openSocks.erase s } }
    | none => st1
  { st2 with client := { st2.client with session_id := none } }

/-- `retrieve(path, ttl)`: RPC `retrieve`, track the returned `lease_id`,
then hex-decode the `value` and decode it as lossy UTF-8. -/
def retrieve (ext : Ext) (st : St) (path : String) (ttl : Option Nat) :
    Except PyError String × St :=
  let params : Params := { session_id := st.client.session_id, path := some path, ttl := ttl }
  match call st "retrieve" params with
  | (.error e, st) => (.error (.vault e), st)
  | (.ok r, st) =>
    match r.lease_id with
    | none => (.error (.keyError "lease_id"), st)
    | some lid =>
      let st : St := { st with client := { st.client with leases := st.client.leases ++ [lid] } }
      match r.value with
      | none => (.error (.keyError "value"), st)
      | some vhex =>
        match bytesFromHex vhex with
        | none => (.error (.valueError "non-hexadecimal number found in fromhex() arg"), st)
        | some bs => (.ok (ext.utf8Replace bs), st)

/-- `retrieve_raw(path, ttl)`: like `retrieve` but returns the full result
mapping unmodified; the lease is tracked the same way (RPC method is also
`retrieve`, and `r["lease_id"]` is appended before returning). -/
def retrieve_raw (st : St) (path : String) (ttl : Option Nat) :
    Except PyError RpcResult × St :=
  let params : Params := { session_id := st.client.session_id, path := some path, ttl := ttl }
  match call st "retrieve" params with
  | (.error e, st) => (.error (.vault e), st)
  | (.ok r, st) =>
    match r.lease_id with
    | none => (.error (.keyError "lease_id"), st)
    | some lid =>
      (.ok r, { st with client := { st.client with leases := st.client.leases ++ [lid] } })

/-- `use(path, operation, params)`: one RPC, no lease tracking. -/
def use (st : St) (path : String) (operation : String) : Except PyError RpcResult × St :=
  match call st "use"
      { session_id := st.client.session_id, path := some path, operation := some operation } with
  | (.error e, st) => (.error (.vault e), st)
  | (.ok r, st) => (.ok r, st)

/-! ## Concrete fixtures for witnesses and counterexamples -/

/-- A concrete instantiation of the external functions (their behaviour is
irrelevant to the properties they witness unless stated). -/
def dummyExt : Ext :=
  { sign := fun _ _ => [],
    pbkdf2 := fun _ _ => [],
    boxOpen := fun _ _ _ => none,
    utf8Replace := fun _ => "" }

/-- A successfully resolved 32-byte signing key. -/
def rkOk : Except PyError SigningKey := .ok ⟨List.replicate 32 0⟩

/-- Successful `authenticate` response carrying a session id and a one-byte
challenge. -/
def okAuthResp (sid : String) : Response :=
  { error := .absent, result := some { session_id := some sid, challenge := some "00" } }

/-- Successful `challenge_response` response confirming authentication. -/
def okConfirmResp : Response :=
  { error := .absent, result := some { authenticated := some true } }

/-- Successful response whose result carries no fields (in particular no
`authenticated`). -/
def emptyResultResp : Response :=
  { error := .absent, result := some {} }

/-- Error response with a legacy bare-string error. -/
def errResp (m : String) : Response := { error := .str m }

/-- Plain success response with no result mapping at all. -/
def okResp : Response := { error := .absent }

/-- A fresh, never-connected session about to receive a handshake
rejection. -/
def stFreshFail : St :=
  { client := initClient "agent", pending := [errResp "handshake refused"] }

/-- A connected session whose server confirms the first handshake round but
not the second. -/
def stC1 : St :=
  { client := { initClient "agent" with sock := some 0 },
    world := { nextSock := 1, openSocks := [0] },
    pending := [okAuthResp "s1", emptyResultResp] }

/-- A connected session holding two leases; the server will fail the first
release and accept the second. -/
def stC3 : St :=
  { client := { initClient "agent" with
                  sock := some 0, session_id := some "sid", leases := ["l1", "l2"] },
    world := { nextSock := 1, openSocks := [0] },
    pending := [errResp "lease registry unavailable", okResp] }

/-- A connected session about to retrieve one credential and release its
lease. -/
def stC4 : St :=
  { client := { initClient "agent" with sock := some 0, session_id := some "sid" },
    world := { nextSock := 1, openSocks := [0] },
    pending := [{ error := .absent,
                  result := some { lease_id := some "lease-1", value := some "00" } },
                okResp] }

/-- A connected session about to retrieve one credential through the raw
variant. -/
def stC4raw : St :=
  { client := { initClient "agent" with sock := some 0, session_id := some "sid" },
    world := { nextSock := 1, openSocks := [0] },
    pending := [{ error := .absent,
                  result := some { lease_id := some "lease-2", value := some "00" } }] }

/-- A fresh session with enough server responses for two full
connect/handshake cycles. -/
def stC8 : St :=
  { client := initClient "agent",
    pending := [okAuthResp "s1", okConfirmResp, okAuthResp "s2", okConfirmResp] }

/-- The run of C8's counterexample: connect, close, connect again. -/
def runC8 : St :=
  (connect dummyExt rkOk none (close (connect dummyExt rkOk none stC8).2)).2

/-- An already-connected session with responses for a second handshake. -/
def stC10 : St :=
  { client := { initClient "agent" with
                  sock := some 0, session_id := some "s1", leases := ["l1"], req_id := 3 },
    world := { nextSock := 1, openSocks := [0] },
    pending := [okAuthResp "s2", okConfirmResp] }

/-- A sequence of RPC invocations made on a session, threading the state and
discarding per-call results (harness for stating the request-id
sequencing). -/
def runCalls (st : St) (calls : List (String × Params)) : St :=
  calls.foldl (fun acc c => (call acc c.1 c.2).2) st

/-- Is the outcome of a key-loading function an authentication-kind vault
failure? -/
def isAuthKind : Except PyError SigningKey → Bool
  | .error (.vault e) => e.kind == .authError
  | _ => false

/-! ## Basic lemmas -/

theorem pack32_length (n : Nat) : (pack32 n).length = 4 := rfl

theorem unpack32_pack32 (n : Nat) (h : n < 2 ^ 32) :
    unpack32 (pack32 n) = n := by
  simp only [pack32, unpack32]
  omega

/-- Decoding a well-formed frame: a correct length prefix, the full payload,
and arbitrary trailing bytes. -/
theorem decode_frame_wellformed {α : Type} (loads : List Nat → Option α)
    (payload t : List Nat) (h : payload.length < 2 ^ 32) :
    decode_frame loads (pack32 payload.length ++ (payload ++ t)) =
      match loads payload with
      | some obj => .ok (obj, t)
      | none => .error (.valueError "json decode") := by
  have htake : (pack32 payload.length ++ (payload ++ t)).take 4 = pack32 payload.length :=
    List.take_left' (pack32_length _)
  have hdrop : (pack32 payload.length ++ (payload ++ t)).drop 4 = payload ++ t :=
    List.drop_left' (pack32_length _)
  have hlen : (pack32 payload.length ++ (payload ++ t)).length =
      4 + (payload.length + t.length) := by
    simp [pack32]
    omega
  unfold decode_frame
  rw [htake, hlen, unpack32_pack32 _ h]
  rw [if_neg (by omega), if_neg (by omega), hdrop]
  rw [List.take_left' rfl]
  have hdrop2 : (pack32 payload.length ++ (payload ++ t)).drop (4 + payload.length) = t := by
    rw [← List.drop_drop, hdrop, List.drop_left' rfl]
  rw [hdrop2]

/-- C7: for every structured payload `p` (with the stdlib JSON left-inverse
property `loads ∘ dumps = some` as a hypothesis, and the payload small enough
for the 4-byte prefix), `decode_frame (encode_frame p ++ t)` returns `p` with
remainder `t`; hence `decode_frame (encode_frame a ++ encode_frame b)`
returns `a` with a remainder whose decode returns `b` with empty
remainder. -/
theorem frame_codec_roundtrip {α : Type} (dumps : α → List Nat)
    (loads : List Nat → Option α) (hinv : ∀ p, loads (dumps p) = some p)
    (a b : α) (t : List Nat)
    (ha : (dumps a).length < 2 ^ 32) (hb : (dumps b).length < 2 ^ 32) :
    decode_frame loads (encode_frame dumps a ++ t) = .ok (a, t) ∧
    decode_frame loads (encode_frame dumps a ++ encode_frame dumps b) =
      .ok (a, encode_frame dumps b) ∧
    decode_frame loads (encode_frame dumps b) = .ok (b, []) := by
  have key : ∀ (p : α) (tr : List Nat), (dumps p).length < 2 ^ 32 →
      decode_frame loads (encode_frame dumps p ++ tr) = .ok (p, tr) := by
    intro p tr hp
    rw [encode_frame, List.append_assoc, decode_frame_wellformed loads _ _ hp, hinv]
  refine ⟨key a t ha, key a (encode_frame dumps b) ha, ?_⟩
  have := key b [] hb
  rwa [List.append_nil] at this

theorem frame_codec_roundtrip_witness :
    decode_frame (α := List Nat) some (encode_frame id [65] ++ [7]) = .ok ([65], [7]) ∧
    decode_frame (α := List Nat) some (encode_frame id [65] ++ encode_frame id [66, 67]) =
      .ok ([65], encode_frame id [66, 67]) ∧
    decode_frame (α := List Nat) some (encode_frame id [66, 67]) = .ok ([66, 67], []) :=
  frame_codec_roundtrip id some (fun _ => rfl) [65] [66, 67] [7]
    (by norm_num) (by norm_num)

/-- C6 counterexample: `decode_frame` performs no maximum-size check — a
frame whose declared length is `MAX_MESSAGE_SIZE + 1`, given in full, is
decoded successfully rather than rejected. -/
theorem decode_frame_no_max_check_cex :
    MAX_MESSAGE_SIZE < 4194305 ∧
    decode_frame (α := List Nat) some
        (pack32 4194305 ++ List.replicate 4194305 32) =
      .ok (List.replicate 4194305 32, []) := by
  constructor
  · norm_num [MAX_MESSAGE_SIZE]
  · have h := decode_frame_wellformed (α := List Nat) some (List.replicate 4194305 32) []
      (by rw [List.length_replicate]; norm_num)
    rw [List.length_replicate, List.append_nil] at h
    exact h

/-- C6 (amended): the streaming `recv` rejects a frame whose declared length
exceeds 4 MiB right after reading the 4-byte header — with no assumption on
how many further bytes the peer will deliver, so before any body read — while
the in-memory `decode_frame` has no maximum-size check and decodes an
over-large frame whenever its full bytes are present. -/
theorem oversized_frame_rejection {α : Type} (loads : List Nat → Option α)
    (stream : List Nat) (h4 : 4 ≤ stream.length)
    (hbig : MAX_MESSAGE_SIZE < unpack32 (stream.take 4)) :
    recvMsg loads stream = .error (.vault (vaultInternal "Response too large")) ∧
    (∀ payload : List Nat, payload.length < 2 ^ 32 →
      decode_frame (α := List Nat) some (pack32 payload.length ++ payload) =
        .ok (payload, [])) := by
  constructor
  · unfold recvMsg read_exact
    rw [if_neg (by omega)]
    simp only
    rw [if_pos hbig]
  · intro payload hp
    have h := decode_frame_wellformed (α := List Nat) some payload [] hp
    rwa [List.append_nil] at h

theorem oversized_frame_rejection_witness :
    recvMsg (α := List Nat) some (pack32 4194305) =
      .error (.vault (vaultInternal "Response too large")) ∧
    decode_frame (α := List Nat) some (pack32 1 ++ [99]) = .ok ([99], []) := by
  have h := oversized_frame_rejection (α := List Nat) some (pack32 4194305)
    (by norm_num [pack32])
    (by rw [show (pack32 4194305).take 4 = pack32 4194305 from rfl]
        rw [unpack32_pack32 _ (by norm_num)]
        norm_num [MAX_MESSAGE_SIZE])
  refine ⟨h.1, ?_⟩
  have h2 := h.2 [99] (by norm_num)
  simpa using h2

/-- C5: `raise_on_error` raises iff the response has an `error` field; a bare
string error yields a generic vault failure with that message and no code; a
structured error yields the kind mapped from its code with message, detail,
suggestion, docs_url and context preserved (code defaulting to
INTERNAL_ERROR, message to "Unknown error", context to empty);
`ACCESS_DENIED` maps to the AccessDenied kind; a code outside the table
falls back to the generic VaultError kind. -/
theorem raise_on_error_taxonomy :
    (∀ resp : Response, raise_on_error resp = none ↔ resp.error = .absent) ∧
    (∀ (i : Nat) (s : String) (res : Option RpcResult),
      raise_on_error ⟨i, .str s, res⟩ = some { kind := .vaultError, message := s }) ∧
    (∀ (i : Nat) (e : StructuredError) (res : Option RpcResult),
      raise_on_error ⟨i, .obj e, res⟩ =
        some { kind := codeToKind (e.code.getD "INTERNAL_ERROR"),
               message := e.message.getD "Unknown error",
               code := some (e.code.getD "INTERNAL_ERROR"),
               detail := e.detail,
               suggestion := e.suggestion,
               docs_url := e.docs_url,
               context := e.context.getD [] }) ∧
    codeToKind "ACCESS_DENIED" = .accessDenied ∧
    (∀ c : String, CODE_TO_EXCEPTION.lookup c = none → codeToKind c = .vaultError) := by
  refine ⟨?_, fun _ _ _ => rfl, fun _ _ _ => rfl, rfl, ?_⟩
  · intro resp
    cases resp with
    | mk i e r => cases e <;> simp [raise_on_error]
  · intro c hc
    rw [codeToKind, hc]
    rfl

theorem raise_on_error_taxonomy_witness :
    raise_on_error { error := .str "msg" } =
      some { kind := .vaultError, message := "msg" } ∧
    codeToKind "SOME_FUTURE_CODE" = .vaultError ∧
    raise_on_error { error := .absent } = none := by
  refine ⟨raise_on_error_taxonomy.2.1 0 "msg" none, ?_, ?_⟩
  · exact raise_on_error_taxonomy.2.2.2.2 "SOME_FUTURE_CODE" (by decide)
  · exact (raise_on_error_taxonomy.1 { error := .absent }).mpr rfl

/-! ## Frame lemmas for the session state -/

/-- `_call` never touches the socket world, the stored socket, the tracked
leases or the session id, and never decreases the id counter. -/
theorem call_frame (st : St) (m : String) (p : Params) :
    (call st m p).2.world = st.world ∧
    (call st m p).2.client.sock = st.client.sock ∧
    (call st m p).2.client.leases = st.client.leases ∧
    (call st m p).2.client.session_id = st.client.session_id ∧
    st.client.req_id ≤ (call st m p).2.client.req_id := by
  unfold call
  split
  · exact ⟨rfl, rfl, rfl, rfl, le_refl _⟩
  · dsimp only
    split
    · exact ⟨rfl, rfl, rfl, rfl, Nat.le_succ _⟩
    · split <;> exact ⟨rfl, rfl, rfl, rfl, Nat.le_succ _⟩

/-- `_authenticate` never touches the socket world, the stored socket or the
tracked leases, and never decreases the id counter. -/
theorem authenticate_frame (ext : Ext) (rk : Except PyError SigningKey) (st : St) :
    (authenticate ext rk st).2.world = st.world ∧
    (authenticate ext rk st).2.client.sock = st.client.sock ∧
    (authenticate ext rk st).2.client.leases = st.client.leases ∧
    st.client.req_id ≤ (authenticate ext rk st).2.client.req_id := by
  unfold authenticate
  split
  · exact ⟨rfl, rfl, rfl, le_refl _⟩
  · rename_i sk
    have h1 := call_frame st "authenticate" { agent_name := some st.client.agent_name }
    split
    · rename_i e st1 heq
      rw [heq] at h1
      exact ⟨h1.1, h1.2.1, h1.2.2.1, h1.2.2.2.2⟩
    · rename_i r st1 heq
      rw [heq] at h1
      obtain ⟨hw1, hs1, hl1, _, hr1⟩ := h1
      split
      · exact ⟨hw1, hs1, hl1, hr1⟩
      · rename_i sid hsid
        split
        · exact ⟨hw1, hs1, hl1, hr1⟩
        · rename_i chex hch
          split
          · exact ⟨hw1, hs1, hl1, hr1⟩
          · rename_i challenge hcb
            dsimp only
            have h2 := call_frame
              { st1 with client := { st1.client with session_id := some sid } }
              "challenge_response"
              { session_id := some sid,
                signature := some (bytesToHex (ext.sign sk.seed challenge)) }
            split
            · rename_i e2 st2 heq2
              rw [heq2] at h2
              exact ⟨h2.1.trans hw1, h2.2.1.trans hs1, h2.2.2.1.trans hl1,
                hr1.trans h2.2.2.2.2⟩
            · rename_i r2 st2 heq2
              rw [heq2] at h2
              obtain ⟨hw2, hs2, hl2, _, hr2⟩ := h2
              split
              · exact ⟨hw2.trans hw1, hs2.trans hs1, hl2.trans hl1, hr1.trans hr2⟩
              · exact ⟨hw2.trans hw1, hs2.trans hs1, hl2.trans hl1, hr1.trans hr2⟩

theorem raise_on_error_absent {resp : Response} (h : resp.error = .absent) :
    raise_on_error resp = none := by
  unfold raise_on_error
  rw [h]

/-- Evaluating one successful `_call`. -/
theorem call_ok (st : St) (m : String) (p : Params) (s : Nat)
    (resp : Response) (rest : List Response)
    (hsock : st.client.sock = some s) (hpend : st.pending = resp :: rest)
    (he : resp.error = .absent) :
    call st m p = (.ok (resp.result.getD {}),
      { st with client := { st.client with req_id := st.client.req_id + 1 },
                pending := rest,
                sent := st.sent ++ [⟨st.client.req_id + 1, m, p⟩] }) := by
  unfold call
  rw [hsock]
  dsimp only
  rw [hpend]
  dsimp only
  rw [raise_on_error_absent he]

/-- Evaluating one `_call` whose response carries an error. -/
theorem call_err (st : St) (m : String) (p : Params) (s : Nat)
    (resp : Response) (rest : List Response) (e : SanctumError)
    (hsock : st.client.sock = some s) (hpend : st.pending = resp :: rest)
    (he : raise_on_error resp = some e) :
    call st m p = (.error e,
      { st with client := { st.client with req_id := st.client.req_id + 1 },
                pending := rest,
                sent := st.sent ++ [⟨st.client.req_id + 1, m, p⟩] }) := by
  unfold call
  rw [hsock]
  dsimp only
  rw [hpend]
  dsimp only
  rw [he]

/-- A `_call` on a disconnected client raises `Not connected` and leaves the
state untouched. -/
theorem call_not_connected (st : St) (m : String) (p : Params)
    (hsock : st.client.sock = none) :
    call st m p = (.error (vaultInternal "Not connected"), st) := by
  unfold call
  rw [hsock]

/-- C2 (amended): `connect` opens and stores a fresh transport, but performs
no close attempt on any path — in particular, when the handshake fails, the
handshake error propagates (the outcome of `connect` is the outcome of the
handshake) while the transport just opened remains both stored in the
session and open in the world. -/
theorem connect_does_not_close_transport_on_failure (ext : Ext)
    (rk : Except PyError SigningKey) (target : Option Target) (st : St) :
    (connect ext rk target st).2.client.sock = some st.world.nextSock ∧
    (connect ext rk target st).2.world.openSocks =
      st.world.openSocks ++ [st.world.nextSock] ∧
    (connect ext rk target st).1 =
      (authenticate ext rk (openTransport target st)).1 := by
  have h := authenticate_frame ext rk (openTransport target st)
  exact ⟨h.2.1, congrArg World.openSocks h.1, rfl⟩

/-- C2 counterexample: on a fresh session whose server rejects the
handshake, `connect` propagates the error yet the transport it opened is
still stored and still open — no close was attempted. -/
theorem connect_failed_handshake_socket_left_open_cex :
    (connect dummyExt rkOk none stFreshFail).1 =
      .error (.vault { kind := .vaultError, message := "handshake refused" }) ∧
    (connect dummyExt rkOk none stFreshFail).2.client.sock = some 0 ∧
    (connect dummyExt rkOk none stFreshFail).2.world.openSocks = [0] :=
  ⟨rfl, rfl, rfl⟩

/-- C10: calling `connect` on an already-connected session opens a fresh
transport and overwrites the stored socket reference; the previous transport
is not closed (it stays in the open set); the tracked leases are unchanged by
the whole `connect`, and the request-id counter is not reset (it carries
over, the handshake continuing from the old value). -/
theorem reconnect_overwrites_socket_carries_state (ext : Ext)
    (rk : Except PyError SigningKey) (target : Option Target) (st : St)
    (s0 : Nat) (_hsock : st.client.sock = some s0)
    (hopen : s0 ∈ st.world.openSocks) (hfresh : s0 < st.world.nextSock) :
    (openTransport target st).client.sock = some st.world.nextSock ∧
    st.world.nextSock ≠ s0 ∧
    s0 ∈ (openTransport target st).world.openSocks ∧
    (openTransport target st).client.leases = st.client.leases ∧
    (openTransport target st).client.req_id = st.client.req_id ∧
    (connect ext rk target st).2.client.leases = st.client.leases ∧
    s0 ∈ (connect ext rk target st).2.world.openSocks ∧
    st.client.req_id ≤ (connect ext rk target st).2.client.req_id := by
  have h := authenticate_frame ext rk (openTransport target st)
  have hleases : (openTransport target st).client.leases = st.client.leases := by
    unfold openTransport applyTarget
    cases target with
    | none => rfl
    | some t => cases t <;> rfl
  have hreq : (openTransport target st).client.req_id = st.client.req_id := by
    unfold openTransport applyTarget
    cases target with
    | none => rfl
    | some t => cases t <;> rfl
  refine ⟨rfl, by omega, ?_, hleases, hreq, ?_, ?_, ?_⟩
  · exact List.mem_append_left _ hopen
  · rw [connect, h.2.2.1, hleases]
  · rw [connect, h.1]
    exact List.mem_append_left _ hopen
  · rw [connect]
    calc st.client.req_id = (openTransport target st).client.req_id := hreq.symm
      _ ≤ _ := h.2.2.2

theorem reconnect_overwrites_socket_carries_state_witness :
    (openTransport none stC10).client.sock = some 1 ∧
    (1 : Nat) ≠ 0 ∧
    0 ∈ (openTransport none stC10).world.openSocks ∧
    (openTransport none stC10).client.leases = ["l1"] ∧
    (openTransport none stC10).client.req_id = 3 ∧
    (connect dummyExt rkOk none stC10).2.client.leases = ["l1"] ∧
    0 ∈ (connect dummyExt rkOk none stC10).2.world.openSocks ∧
    (3 : Nat) ≤ (connect dummyExt rkOk none stC10).2.client.req_id := by
  have h := reconnect_overwrites_socket_carries_state dummyExt rkOk none stC10 0
    rfl (by decide) (by decide)
  exact h

/-- C1 (amended): when the `challenge_response` result's `authenticated`
field is false or absent, the handshake fails with an AuthFailed-kind error
(kind AuthError, code AUTH_FAILED) — but the Session's stored session
identifier is NOT rolled back: it retains the identifier stored during the
first handshake round, so the state is not unchanged on error. -/
theorem auth_not_confirmed_retains_session_id (ext : Ext) (sk : SigningKey)
    (st : St) (s : Nat) (r1 r2 : Response) (rest : List Response)
    (res1 : RpcResult) (sid chex : String) (cb : List Nat)
    (hsock : st.client.sock = some s)
    (hpend : st.pending = r1 :: r2 :: rest)
    (h1e : r1.error = .absent)
    (h1r : r1.result = some res1)
    (h1sid : res1.session_id = some sid)
    (h1ch : res1.challenge = some chex)
    (hcb : bytesFromHex chex = some cb)
    (h2e : r2.error = .absent)
    (h2auth : ¬ (r2.result.getD {}).authenticated = some true) :
    (authenticate ext (.ok sk) st).1 =
      .error (.vault (authFailed "Authentication not confirmed")) ∧
    (authenticate ext (.ok sk) st).2.client.session_id = some sid ∧
    (authFailed "Authentication not confirmed").kind = .authError ∧
    (authFailed "Authentication not confirmed").code = some "AUTH_FAILED" := by
  have hc1 := call_ok st "authenticate" { agent_name := some st.client.agent_name }
    s r1 (r2 :: rest) hsock hpend h1e
  rw [h1r] at hc1
  unfold authenticate
  rw [hc1]
  dsimp only [Option.getD_some]
  rw [h1sid]
  dsimp only
  rw [h1ch]
  dsimp only
  rw [hcb]
  dsimp only
  have hc2 := call_ok
    ({ st with client := { st.client with
                             session_id := some sid, req_id := st.client.req_id + 1 },
               pending := r2 :: rest,
               sent := st.sent ++ [⟨st.client.req_id + 1, "authenticate",
                 { agent_name := some st.client.agent_name }⟩] } : St)
    "challenge_response"
    { session_id := some sid, signature := some (bytesToHex (ext.sign sk.seed cb)) }
    s r2 rest hsock rfl h2e
  rw [hc2]
  dsimp only
  rw [if_neg h2auth]
  exact ⟨rfl, rfl, rfl, rfl⟩

/-- C1 counterexample: in the concrete failed handshake the error is raised
as the claim says, but the session identifier delivered by the first round
trip is retained in the failed Session (it was `none` before `connect`), so
the state is not unchanged on error. -/
theorem auth_not_confirmed_retains_session_id_cex :
    (authenticate dummyExt rkOk stC1).1 =
      .error (.vault (authFailed "Authentication not confirmed")) ∧
    stC1.client.session_id = none ∧
    (authenticate dummyExt rkOk stC1).2.client.session_id = some "s1" :=
  ⟨rfl, rfl, rfl⟩

theorem auth_not_confirmed_retains_session_id_witness :
    (authenticate dummyExt rkOk stC1).1 =
      .error (.vault (authFailed "Authentication not confirmed")) ∧
    (authenticate dummyExt rkOk stC1).2.client.session_id = some "s1" ∧
    (authFailed "Authentication not confirmed").kind = .authError ∧
    (authFailed "Authentication not confirmed").code = some "AUTH_FAILED" := by
  have h := auth_not_confirmed_retains_session_id dummyExt ⟨List.replicate 32 0⟩
    stC1 0 (okAuthResp "s1") emptyResultResp [] { session_id := some "s1", challenge := some "00" }
    "s1" "00" [0] rfl rfl rfl rfl rfl rfl (by decide) rfl (by decide)
  exact h

/-! ## Lemmas about `close` -/

/-- The request log and counter after one `_call` on a connected client. -/
theorem call_sent (st : St) (m : String) (p : Params) (s : Nat)
    (hsock : st.client.sock = some s) :
    (call st m p).2.sent = st.sent ++ [⟨st.client.req_id + 1, m, p⟩] ∧
    (call st m p).2.client.sock = some s ∧
    (call st m p).2.client.req_id = st.client.req_id + 1 := by
  unfold call
  rw [hsock]
  dsimp only
  split
  · exact ⟨rfl, hsock, rfl⟩
  · split <;> exact ⟨rfl, hsock, rfl⟩

/-- `release_lease` preserves the socket, the world and the session id, and
never decreases the id counter. -/
theorem release_lease_frame (st : St) (lid : String) :
    (release_lease st lid).2.client.sock = st.client.sock ∧
    (release_lease st lid).2.world = st.world ∧
    (release_lease st lid).2.client.session_id = st.client.session_id ∧
    st.client.req_id ≤ (release_lease st lid).2.client.req_id := by
  unfold release_lease
  have h := call_frame st "release_lease" { lease_id := some lid }
  split
  · rename_i e st1 heq
    rw [heq] at h
    exact ⟨h.2.1, h.1, h.2.2.2.1, h.2.2.2.2⟩
  · rename_i r st1 heq
    rw [heq] at h
    exact ⟨h.2.1, h.1, h.2.2.2.1, h.2.2.2.2⟩

/-- On a connected client, `release_lease` logs exactly one
`release_lease` request for its id. -/
theorem release_lease_sent (st : St) (s : Nat) (lid : String)
    (hsock : st.client.sock = some s) :
    (release_lease st lid).2.sent =
      st.sent ++ [⟨st.client.req_id + 1, "release_lease", { lease_id := some lid }⟩] ∧
    (release_lease st lid).2.client.sock = some s := by
  unfold release_lease
  have h := call_sent st "release_lease" { lease_id := some lid } s hsock
  split
  · rename_i e st1 heq
    rw [heq] at h
    exact ⟨h.1, h.2.1⟩
  · rename_i r st1 heq
    rw [heq] at h
    exact ⟨h.1, h.2.1⟩

/-- `release_lease` on a disconnected client raises and changes nothing. -/
theorem release_lease_not_connected (st : St) (lid : String)
    (hsock : st.client.sock = none) :
    release_lease st lid = (.error (vaultInternal "Not connected"), st) := by
  unfold release_lease
  rw [call_not_connected st "release_lease" { lease_id := some lid } hsock]

/-- The lease-draining loop of `close`, on a connected client: the socket,
world and session id are untouched and one `release_lease` request is
logged per lease id, in order — regardless of per-release outcomes. -/
theorem drain_loop (lids : List String) (st : St) (s : Nat)
    (hsock : st.client.sock = some s) :
    (lids.foldl (fun acc lid => (release_lease acc lid).2) st).client.sock = some s ∧
    (lids.foldl (fun acc lid => (release_lease acc lid).2) st).world = st.world ∧
    (lids.foldl (fun acc lid => (release_lease acc lid).2) st).client.session_id =
      st.client.session_id ∧
    (lids.foldl (fun acc lid => (release_lease acc lid).2) st).sent.map
        (fun r => (r.method, r.params.lease_id)) =
      st.sent.map (fun r => (r.method, r.params.lease_id)) ++
        lids.map (fun l => ("release_lease", some l)) := by
  induction lids generalizing st with
  | nil => simpa using hsock
  | cons lid rest ih =>
    have hf := release_lease_frame st lid
    have hs := release_lease_sent st s lid hsock
    have ihr := ih (release_lease st lid).2 hs.2
    refine ⟨ihr.1, ihr.2.1.trans hf.2.1, ihr.2.2.1.trans hf.2.2.1, ?_⟩
    simp only [List.foldl_cons]
    rw [ihr.2.2.2, hs.1]
    simp

/-- The lease-draining loop on a disconnected client is the identity. -/
theorem drain_loop_not_connected (lids : List String) (st : St)
    (hsock : st.client.sock = none) :
    lids.foldl (fun acc lid => (release_lease acc lid).2) st = st := by
  induction lids with
  | nil => rfl
  | cons lid rest ih =>
    simp only [List.foldl_cons]
    rw [release_lease_not_connected st lid hsock]
    exact ih

/-- After `close`, the socket is gone. -/
theorem close_sock_none (st : St) : (close st).client.sock = none := by
  unfold close
  dsimp only
  split
  · rfl
  · rename_i heq
    exact heq

/-- After `close`, the session id is cleared. -/
theorem close_session_id_none (st : St) : (close st).client.session_id = none := by
  unfold close
  dsimp only

theorem client_session_id_eta (c : Client) (h : c.session_id = none) :
    ({ c with session_id := none } : Client) = c := by
  cases c
  simp_all

/-- `close` on an already-closed session (no socket, no session id) is the
identity. -/
theorem close_of_closed (st : St) (hs : st.client.sock = none)
    (hn : st.client.session_id = none) : close st = st := by
  unfold close
  dsimp only
  rw [drain_loop_not_connected st.client.leases st hs]
  rw [hs]
  dsimp only
  rw [client_session_id_eta st.client hn]

/-- C3: on a connected session, `close` attempts `release_lease` for every
tracked lease id in order (one logged RPC per id, even when some fail), then
closes the transport (socket cleared and removed from the open set), then
clears the session identifier; and `close` is idempotent — a second call
returns the state unchanged and, by construction of the total function,
raises nothing. -/
theorem close_releases_all_then_closes_idempotent (st : St) (s : Nat)
    (hsock : st.client.sock = some s) :
    ((close st).sent.map (fun r => (r.method, r.params.lease_id)) =
      st.sent.map (fun r => (r.method, r.params.lease_id)) ++
        st.client.leases.map (fun l => ("release_lease", some l))) ∧
    (close st).client.sock = none ∧
    (close st).world.openSocks = st.world.openSocks.erase s ∧
    (close st).client.session_id = none ∧
    close (close st) = close st := by
  have hd := drain_loop st.client.leases st s hsock
  refine ⟨?_, close_sock_none st, ?_, close_session_id_none st, ?_⟩
  · unfold close
    dsimp only
    split <;> exact hd.2.2.2
  · unfold close
    dsimp only
    split
    · rename_i s' heq
      rw [hd.1] at heq
      cases heq
      dsimp only
      rw [congrArg World.openSocks hd.2.1]
    · rename_i heq
      rw [hd.1] at heq
      cases heq
  · exact close_of_closed (close st) (close_sock_none st) (close_session_id_none st)

theorem close_releases_all_then_closes_idempotent_witness :
    ((close stC3).sent.map (fun r => (r.method, r.params.lease_id)) =
      [("release_lease", some "l1"), ("release_lease", some "l2")]) ∧
    (close stC3).client.sock = none ∧
    (close stC3).world.openSocks = [] ∧
    (close stC3).client.session_id = none ∧
    close (close stC3) = close stC3 :=
  close_releases_all_then_closes_idempotent stC3 0 rfl

/-- C4: (a) after a successful `retrieve`, the returned `lease_id` is
appended to the active-lease list exactly once (its count goes up by one)
and is present afterward; (b) a successful `release_lease` removes it
exactly once (first occurrence erased), so if it was tracked at most once it
is absent afterward; and a `release_lease` whose RPC succeeds never raises
at the Session layer even when the id is absent — the list is then simply
unchanged. -/
theorem lease_set_invariant (ext : Ext) :
    (∀ (st : St) (pth : String) (ttl : Option Nat) (s : Nat) (resp : Response)
        (rest : List Response) (lid : String),
        st.client.sock = some s → st.pending = resp :: rest →
        resp.error = .absent → (resp.result.getD {}).lease_id = some lid →
        (retrieve ext st pth ttl).2.client.leases = st.client.leases ++ [lid] ∧
        (retrieve ext st pth ttl).2.client.leases.count lid =
          st.client.leases.count lid + 1 ∧
        lid ∈ (retrieve ext st pth ttl).2.client.leases) ∧
    (∀ (st : St) (pth : String) (ttl : Option Nat) (s : Nat) (resp : Response)
        (rest : List Response) (lid : String),
        st.client.sock = some s → st.pending = resp :: rest →
        resp.error = .absent → (resp.result.getD {}).lease_id = some lid →
        (retrieve_raw st pth ttl).1 = .ok (resp.result.getD {}) ∧
        (retrieve_raw st pth ttl).2.client.leases = st.client.leases ++ [lid] ∧
        (retrieve_raw st pth ttl).2.client.leases.count lid =
          st.client.leases.count lid + 1 ∧
        lid ∈ (retrieve_raw st pth ttl).2.client.leases) ∧
    (∀ (st : St) (s : Nat) (resp : Response) (rest : List Response) (lid : String),
        st.client.sock = some s → st.pending = resp :: rest → resp.error = .absent →
        (release_lease st lid).1 = .ok () ∧
        (release_lease st lid).2.client.leases = st.client.leases.erase lid ∧
        (st.client.leases.count lid ≤ 1 →
          lid ∉ (release_lease st lid).2.client.leases) ∧
        (lid ∉ st.client.leases →
          (release_lease st lid).2.client.leases = st.client.leases)) := by
  refine ⟨?_, ?_, ?_⟩
  · intro st pth ttl s resp rest lid hsock hpend he hlid
    have hc := call_ok st "retrieve"
      { session_id := st.client.session_id, path := some pth, ttl := ttl }
      s resp rest hsock hpend he
    have hleases : (retrieve ext st pth ttl).2.client.leases =
        st.client.leases ++ [lid] := by
      unfold retrieve
      dsimp only
      rw [hc]
      dsimp only
      rw [hlid]
      dsimp only
      split
      · rfl
      · split
        · rfl
        · rfl
    refine ⟨hleases, ?_, ?_⟩
    · rw [hleases]
      simp
    · rw [hleases]
      simp
  · intro st pth ttl s resp rest lid hsock hpend he hlid
    have hc := call_ok st "retrieve"
      { session_id := st.client.session_id, path := some pth, ttl := ttl }
      s resp rest hsock hpend he
    have hraw : retrieve_raw st pth ttl = (.ok (resp.result.getD {}),
        { st with client := { st.client with
                                req_id := st.client.req_id + 1,
                                leases := st.client.leases ++ [lid] },
                  pending := rest,
                  sent := st.sent ++ [⟨st.client.req_id + 1, "retrieve",
                    { session_id := st.client.session_id, path := some pth,
                      ttl := ttl }⟩] }) := by
      unfold retrieve_raw
      dsimp only
      rw [hc]
      dsimp only
      rw [hlid]
    rw [hraw]
    refine ⟨rfl, rfl, ?_, ?_⟩
    · dsimp only
      simp
    · dsimp only
      simp
  · intro st s resp rest lid hsock hpend he
    have hc := call_ok st "release_lease" { lease_id := some lid }
      s resp rest hsock hpend he
    have hrel : release_lease st lid = (.ok (),
        { st with client := { st.client with
                                req_id := st.client.req_id + 1,
                                leases := st.client.leases.erase lid },
                  pending := rest,
                  sent := st.sent ++ [⟨st.client.req_id + 1, "release_lease",
                    { lease_id := some lid }⟩] }) := by
      unfold release_lease
      rw [hc]
    rw [hrel]
    refine ⟨rfl, rfl, ?_, ?_⟩
    · intro hcount
      dsimp only
      intro hmem
      have h1 := List.count_pos_iff.mpr hmem
      rw [List.count_erase_self] at h1
      omega
    · intro habs
      dsimp only
      exact List.erase_of_not_mem habs

theorem lease_set_invariant_witness :
    (retrieve dummyExt stC4 "openai/api_key" none).2.client.leases = ["lease-1"] ∧
    "lease-1" ∈ (retrieve dummyExt stC4 "openai/api_key" none).2.client.leases ∧
    (release_lease (retrieve dummyExt stC4 "openai/api_key" none).2 "lease-1").1 =
      .ok () ∧
    "lease-1" ∉
      (release_lease (retrieve dummyExt stC4 "openai/api_key" none).2
        "lease-1").2.client.leases ∧
    (retrieve_raw stC4raw "db/password" none).1 =
      .ok { lease_id := some "lease-2", value := some "00" } ∧
    (retrieve_raw stC4raw "db/password" none).2.client.leases = ["lease-2"] ∧
    "lease-2" ∈ (retrieve_raw stC4raw "db/password" none).2.client.leases := by
  have h := lease_set_invariant dummyExt
  have h1 := h.1 stC4 "openai/api_key" none 0
    ({ error := .absent,
       result := some { lease_id := some "lease-1", value := some "00" } } : Response)
    [okResp] "lease-1" rfl rfl rfl rfl
  have hr := h.2.1 stC4raw "db/password" none 0
    ({ error := .absent,
       result := some { lease_id := some "lease-2", value := some "00" } } : Response)
    [] "lease-2" rfl rfl rfl rfl
  have h2 := h.2.2 (retrieve dummyExt stC4 "openai/api_key" none).2 0 okResp []
    "lease-1" rfl rfl rfl
  refine ⟨h1.1, h1.2.2, h2.1, h2.2.2.1 ?_, hr.1, hr.2.1, hr.2.2.2⟩
  rw [h1.1]
  decide

/-! ## Request-id sequencing -/

/-- On a connected client, a run of RPC calls logs requests whose ids are
the consecutive integers continuing from the current counter. -/
theorem runCalls_ids (calls : List (String × Params)) (st : St) (s : Nat)
    (hsock : st.client.sock = some s) :
    (runCalls st calls).sent.map Request.id =
      st.sent.map Request.id ++ List.range' (st.client.req_id + 1) calls.length ∧
    (runCalls st calls).client.sock = some s ∧
    (runCalls st calls).client.req_id = st.client.req_id + calls.length := by
  induction calls generalizing st with
  | nil => exact ⟨by simp [runCalls], hsock, rfl⟩
  | cons c cs ih =>
    have hstep := call_sent st c.1 c.2 s hsock
    have ihr := ih (call st c.1 c.2).2 hstep.2.1
    refine ⟨?_, ihr.2.1, ?_⟩
    · rw [show runCalls st (c :: cs) = runCalls (call st c.1 c.2).2 cs from rfl]
      rw [ihr.1, hstep.1, hstep.2.2]
      simp [List.range']
    · rw [show runCalls st (c :: cs) = runCalls (call st c.1 c.2).2 cs from rfl]
      rw [ihr.2.2, hstep.2.2]
      simp only [List.length_cons]
      omega

/-- The lease-draining loop never decreases the id counter. -/
theorem drain_loop_req_id_mono (lids : List String) (st : St) :
    st.client.req_id ≤
      (lids.foldl (fun acc lid => (release_lease acc lid).2) st).client.req_id := by
  induction lids generalizing st with
  | nil => exact le_refl _
  | cons lid rest ih =>
    exact le_trans (release_lease_frame st lid).2.2.2 (ih (release_lease st lid).2)

/-- `close` never resets the id counter. -/
theorem close_req_id_mono (st : St) : st.client.req_id ≤ (close st).client.req_id := by
  have h := drain_loop_req_id_mono st.client.leases st
  unfold close
  dsimp only
  split
  · exact h
  · exact h

/-- `openTransport` leaves the id counter unchanged. -/
theorem openTransport_req_id (target : Option Target) (st : St) :
    (openTransport target st).client.req_id = st.client.req_id := by
  unfold openTransport applyTarget
  cases target with
  | none => rfl
  | some t => cases t <;> rfl

/-- C8 (amended): the ids assigned to successive RPC calls form the
monotonically increasing sequence `1, 2, 3, …` over the lifetime of the
client object: the first request after construction has id 1 and each
subsequent id is the previous plus one, so ids are unique across the
client's whole lifetime.  The counter is not reset by `connect` or `close`
(opening a transport leaves it unchanged, `close` and `connect` only ever
increase it), so the first request of a reconnection continues the sequence
rather than restarting at 1. -/
theorem request_id_sequencing (st : St) (s : Nat) (calls : List (String × Params))
    (hsock : st.client.sock = some s) (h0 : st.client.req_id = 0)
    (hsent : st.sent = []) :
    (runCalls st calls).sent.map Request.id = List.range' 1 calls.length ∧
    ((runCalls st calls).sent.map Request.id).Nodup ∧
    (∀ st' : St, st'.client.req_id ≤ (close st').client.req_id) ∧
    (∀ (target : Option Target) (st' : St),
      (openTransport target st').client.req_id = st'.client.req_id) ∧
    (∀ (ext : Ext) (rk : Except PyError SigningKey) (target : Option Target)
        (st' : St),
      st'.client.req_id ≤ (connect ext rk target st').2.client.req_id) := by
  have h := runCalls_ids calls st s hsock
  rw [h0, hsent] at h
  refine ⟨by simpa using h.1, ?_, close_req_id_mono, openTransport_req_id, ?_⟩
  · rw [show (runCalls st calls).sent.map Request.id = List.range' 1 calls.length
        from by simpa using h.1]
    exact List.nodup_range' 1 calls.length
  · intro ext rk target st'
    calc st'.client.req_id = (openTransport target st').client.req_id :=
          (openTransport_req_id target st').symm
      _ ≤ _ := (authenticate_frame ext rk (openTransport target st')).2.2.2

theorem request_id_sequencing_witness :
    (runCalls { client := { initClient "w" with sock := some 0 } }
        [("list", {}), ("list", {})]).sent.map Request.id = [1, 2] ∧
    ((runCalls { client := { initClient "w" with sock := some 0 } }
        [("list", {}), ("list", {})]).sent.map Request.id).Nodup ∧
    stC10.client.req_id ≤ (close stC10).client.req_id := by
  have h := request_id_sequencing
    { client := { initClient "w" with sock := some 0 } } 0
    [("list", {}), ("list", {})] rfl rfl rfl
  exact ⟨h.1, h.2.1, h.2.2.1 stC10⟩

/-- C8 counterexample: after `connect`, `close`, `connect` on one client,
the request log ids are 1, 2, 3, 4 — the first request of the second
connection (the third request overall, at index 2) carries id 3, not 1: the
sequence is per-client, not restarted per connection. -/
theorem request_id_not_reset_on_reconnect_cex :
    runC8.sent.map Request.id = [1, 2, 3, 4] ∧
    runC8.sent.map Request.method =
      ["authenticate", "challenge_response", "authenticate", "challenge_response"] ∧
    (runC8.sent.map Request.id).drop 2 = [3, 4] ∧
    (3 : Nat) ≠ 1 :=
  ⟨rfl, rfl, rfl, by omega⟩

/-! ## Key resolution -/

/-- C9 (amended): with an explicit key path the file is read as hex text
and, when the hex decodes to a length other than 32 bytes, resolution fails
with an AuthFailed-kind error; but the other resolution failures are NOT
authentication-kind: malformed hex raises a plain `ValueError` (from
`bytes.fromhex`) and a failed secret-box decryption (e.g. wrong passphrase)
raises a `CryptoError` (from `nacl`) — only the explicit length check
produces an authentication failure. -/
theorem key_resolution_failure_kinds (ext : Ext) (contents pw : String) :
    (∀ seed : List Nat, bytesFromHex (strip contents) = some seed → seed.length ≠ 32 →
      load_signing_key contents = .error (.vault (authFailed
        ("Key file has " ++ toString seed.length ++ " bytes, expected 32"))) ∧
      isAuthKind (load_signing_key contents) = true) ∧
    (bytesFromHex (strip contents) = none →
      load_signing_key contents =
        .error (.valueError "non-hexadecimal number found in fromhex() arg") ∧
      isAuthKind (load_signing_key contents) = false) ∧
    (∀ blob : List Nat, bytesFromHex (strip contents) = some blob →
      ext.boxOpen (ext.pbkdf2 pw (blob.take 16)) (blob.drop 40)
          ((blob.drop 16).take 24) = none →
      load_encrypted_key ext contents pw =
        .error (.cryptoError "Decryption failed. Ciphertext failed verification") ∧
      isAuthKind (load_encrypted_key ext contents pw) = false) := by
  refine ⟨?_, ?_, ?_⟩
  · intro seed hhex hlen
    have he : load_signing_key contents = .error (.vault (authFailed
        ("Key file has " ++ toString seed.length ++ " bytes, expected 32"))) := by
      unfold load_signing_key
      rw [hhex]
      dsimp only
      rw [if_pos hlen]
    refine ⟨he, ?_⟩
    rw [he]
    rfl
  · intro hhex
    have he : load_signing_key contents =
        .error (.valueError "non-hexadecimal number found in fromhex() arg") := by
      unfold load_signing_key
      rw [hhex]
    exact ⟨he, by rw [he]; rfl⟩
  · intro blob hhex hbox
    have he : load_encrypted_key ext contents pw =
        .error (.cryptoError "Decryption failed. Ciphertext failed verification") := by
      unfold load_encrypted_key
      rw [hhex]
      dsimp only
      rw [hbox]
    exact ⟨he, by rw [he]; rfl⟩

theorem key_resolution_failure_kinds_witness :
    load_signing_key "00" = .error (.vault (authFailed
      "Key file has 1 bytes, expected 32")) ∧
    isAuthKind (load_signing_key "00") = true ∧
    load_signing_key "zz" =
      .error (.valueError "non-hexadecimal number found in fromhex() arg") ∧
    load_encrypted_key dummyExt "00" "pw" =
      .error (.cryptoError "Decryption failed. Ciphertext failed verification") := by
  have h1 := (key_resolution_failure_kinds dummyExt "00" "pw").1 [0]
    (by decide) (by decide)
  have h2 := (key_resolution_failure_kinds dummyExt "zz" "pw").2.1 (by decide)
  have h3 := (key_resolution_failure_kinds dummyExt "00" "pw").2.2 [0]
    (by decide) rfl
  exact ⟨h1.1, h1.2, h2.1, h3.1⟩

/-- C9 counterexample: a malformed-hex key file is a key-resolution failure
whose surfaced exception is a plain `ValueError`, not an
authentication-kind failure — refuting "every decryption or length failure
during key resolution is an authentication-kind failure, never a generic
other failure". -/
theorem key_resolution_generic_error_cex :
    bytesFromHex "zz" = none ∧
    load_signing_key "zz" =
      .error (.valueError "non-hexadecimal number found in fromhex() arg") ∧
    isAuthKind (load_signing_key "zz") = false ∧
    load_encrypted_key dummyExt "00" "pw" =
      .error (.cryptoError "Decryption failed. Ciphertext failed verification") ∧
    isAuthKind (load_encrypted_key dummyExt "00" "pw") = false := by
  exact ⟨by decide, rfl, by decide, rfl, by decide⟩

end Sanctum
